import Mathlib

/-!
Shallow embedding of `main.py` (LinkedInJobScraper).

Modelling choices:
- HTML elements reachable through the markup-query collaborator are carried as
  abstract structures (`Card`, `DetailPage`, `CriteriaItem`): an `Option` field
  is `none` exactly when the corresponding `soup.find` returns no element, and
  the carried `String` is the raw text of the element; the Python string
  operations applied to that text (`.strip()` / `get_text(strip=True)`,
  `.lower()`, `[:500]`) are embedded as the executable functions `pyStrip`,
  `pyLower`, `pyTake` below.
- The network is an environment function from the request to an outcome.
  `FetchOutcome.exn` models `session.get` raising; `FetchOutcome.resp` carries
  the status code and the body, where the body is `Except.error ()` when
  `BeautifulSoup` parsing of the response text raises.
- Observable side effects (HTTP requests and `time.sleep(random.uniform(lo, hi))`
  calls) are collected in an explicit trace of `Effect`s returned next to the
  value, in program order.
- Every embedded function is total, mirroring that `get_detailed_job_info`
  catches every exception of its body and `search_jobs` catches every
  exception of a page cycle.
-/

namespace Scraper

/-- Python `str.lower()` restricted to the ASCII case mapping used by the
labels the program compares against. -/
def pyLower (s : String) : String := ⟨s.data.map Char.toLower⟩

/-- Python `str.strip()` / BeautifulSoup `get_text(strip=True)` on the text of
one element: drop whitespace from both ends. -/
def pyStrip (s : String) : String :=
  ⟨((s.data.dropWhile Char.isWhitespace).reverse.dropWhile Char.isWhitespace).reverse⟩

/-- Python slicing `s[:n]`: the first `n` characters of `s`. -/
def pyTake (s : String) (n : Nat) : String := ⟨s.data.take n⟩

/-- Helper for substring search: does the first list occur at the head of the
second one? -/
def startsWithChars : List Char → List Char → Bool
  | [], _ => true
  | _ :: _, [] => false
  | a :: as, b :: bs => a == b && startsWithChars as bs

/-- Helper for substring search: does `pat` occur contiguously in the list? -/
def hasSubChars (pat : List Char) : List Char → Bool
  | [] => pat.isEmpty
  | b :: bs => startsWithChars pat (b :: bs) || hasSubChars pat bs

/-- Python `pat in hay` on strings: contiguous substring containment. -/
def strContains (hay pat : String) : Bool := hasSubChars pat.data hay.data

/-- One `li.description__job-criteria-item` of a detail page: the optional
`h3` subheader element text and the optional `span` criteria-text element
text (raw, not yet stripped). -/
structure CriteriaItem where
  subtitle : Option String
  text : Option String
deriving DecidableEq

/-- The queryable content of a successfully parsed detail page:
the optional `div.description__text` element text, the list of criteria
items in document order, and whether an `a.message-the-recruiter` element
is present. -/
structure DetailPage where
  descText : Option String
  criteriaItems : List CriteriaItem
  hasContactElem : Bool
deriving DecidableEq

/-- One job card of a listing page. `title_elem`, `company_elem` and
`location_elem` are the raw texts of the corresponding elements when present;
`date_elem` is `some a` when a `time` element is present, with `a` its
optional `datetime` attribute; `link_elem` is `some h` when the full-link
anchor is present, with `h` its optional `href` attribute. -/
structure Card where
  title_elem : Option String
  company_elem : Option String
  location_elem : Option String
  date_elem : Option (Option String)
  link_elem : Option (Option String)
deriving DecidableEq

/-- The six detail fields filled by `get_detailed_job_info`. -/
structure DetailedData where
  description : String
  seniority_level : String
  employment_type : String
  job_function : String
  industries : String
  contact_info : String
deriving DecidableEq

/-- One merged output record (`job_data` after `update`). `date_posted` is
`none` when the `time` element lacks a `datetime` attribute, and `job_url`
is `none` when the full-link anchor lacks an `href` attribute (Python
`Tag.get` returning `None`). -/
structure JobRecord where
  title : String
  company : String
  location : String
  date_posted : Option String
  job_url : Option String
  description : String
  seniority_level : String
  employment_type : String
  job_function : String
  industries : String
  contact_info : String
deriving DecidableEq

/-- Outcome of `session.get` on a detail URL: the request may raise, or
return a response whose status code is observed and whose body either parses
to a `DetailPage` or raises at parse time. -/
inductive FetchOutcome where
  | exn : FetchOutcome
  | resp (status : Nat) (body : Except Unit DetailPage) : FetchOutcome

/-- Outcome of `session.get` on a listing-page URL: as `FetchOutcome`, but a
successful parse yields the list of job cards found on the page. -/
inductive ListingOutcome where
  | exn : ListingOutcome
  | resp (status : Nat) (body : Except Unit (List Card)) : ListingOutcome

/-- Observable side effects, in program order: a listing-page request
(identified by its query parameters), a detail-page request (identified by
its URL), and a blocking `time.sleep(random.uniform(lo, hi))`. -/
inductive Effect where
  | listingRequest (keywords location : String) (start : Nat) : Effect
  | detailRequest (url : String) : Effect
  | sleepUniform (lo hi : Nat) : Effect
deriving DecidableEq

/-- The dictionary `detailed_data` is initialized with at lines 103-110. -/
def defaultDetailedData : DetailedData :=
  { description := "N/A"
    seniority_level := "N/A"
    employment_type := "N/A"
    job_function := "N/A"
    industries := "N/A"
    contact_info := "N/A" }

/-- One iteration of the criteria loop (lines 132-146): when both the
subheader and the text element are present, lower-case the stripped label and
assign the stripped value to the field of the first matching category of the
`if`/`elif` chain; otherwise leave the data unchanged. -/
def classifyCriteriaItem (d : DetailedData) (item : CriteriaItem) : DetailedData :=
  match item.subtitle, item.text with
  | some subtitle, some text =>
    let subtitle_text := pyLower (pyStrip subtitle)
    if strContains subtitle_text "seniority level" then
      { d with seniority_level := pyStrip text }
    else if strContains subtitle_text "employment type" then
      { d with employment_type := pyStrip text }
    else if strContains subtitle_text "job function" then
      { d with job_function := pyStrip text }
    else if strContains subtitle_text "industries" then
      { d with industries := pyStrip text }
    else d
  | _, _ => d

/-- The extraction body of `get_detailed_job_info` on a successfully parsed
detail page (lines 122-151): set the description if its container is present
(truncate the stripped text to 500 characters and append the ellipsis
unconditionally), run the criteria loop, then set `contact_info` if the
recruiter-messaging element is present. `detailed_data` is still at its
defaults when this code runs. -/
def extractDetailPage (soup : DetailPage) : DetailedData :=
  let d1 :=
    match soup.descText with
    | some t =>
        { defaultDetailedData with description := pyTake (pyStrip t) 500 ++ "..." }
    | none => defaultDetailedData
  let d2 := soup.criteriaItems.foldl classifyCriteriaItem d1
  if soup.hasContactElem then
    { d2 with contact_info := "Recruiter messaging available" }
  else d2

/-- `get_detailed_job_info` (lines 100-159), with its effect trace.
`job_url` is `none` when the card's anchor had no `href` attribute; the
Python guard `if not job_url or job_url == 'N/A'` is true for `None`, `""`
and `"N/A"`. Every successful path ends with the `time.sleep(random.uniform(1, 3))`
of line 154; every handled failure returns the defaults early. Totality of
this function mirrors the enclosing `try`/`except` catching every exception. -/
def get_detailed_job_info (net : String → FetchOutcome) :
    Option String → DetailedData × List Effect
  | none => (defaultDetailedData, [])
  | some u =>
    if u = "" ∨ u = "N/A" then (defaultDetailedData, [])
    else
      match net u with
      | .exn => (defaultDetailedData, [.detailRequest u])
      | .resp status body =>
        if status ≠ 200 then (defaultDetailedData, [.detailRequest u])
        else
          match body with
          | .error _ => (defaultDetailedData, [.detailRequest u])
          | .ok soup => (extractDetailPage soup, [.detailRequest u, .sleepUniform 1 3])

/-- `extract_job_data` (lines 72-98), with its effect trace: `none` when any
of the title, company or full-link elements is missing (lines 82-83, before
any detail fetch); otherwise the merged record, enriched synchronously by
`get_detailed_job_info` on the card's `href` value. -/
def extract_job_data (net : String → FetchOutcome) (card : Card) :
    Option JobRecord × List Effect :=
  match card.title_elem, card.company_elem, card.link_elem with
  | some title_text, some company_text, some href =>
    let job_url : Option String := href
    let detailed := get_detailed_job_info net job_url
    (some
      { title := pyStrip title_text
        company := pyStrip company_text
        location :=
          match card.location_elem with
          | some l => pyStrip l
          | none => "N/A"
        date_posted :=
          match card.date_elem with
          | some a => a
          | none => some "N/A"
        job_url := job_url
        description := detailed.1.description
        seniority_level := detailed.1.seniority_level
        employment_type := detailed.1.employment_type
        job_function := detailed.1.job_function
        industries := detailed.1.industries
        contact_info := detailed.1.contact_info },
      detailed.2)
  | _, _, _ => (none, [])

/-- `parse_job_listing` (lines 53-70), with its effect trace: process the
cards in order, appending each extracted record; a card yielding `None` is
skipped and the remaining cards are processed unchanged. -/
def parse_job_listing (net : String → FetchOutcome) :
    List Card → List JobRecord × List Effect
  | [] => ([], [])
  | card :: rest =>
    let ex := extract_job_data net card
    let tail := parse_job_listing net rest
    match ex.1 with
    | some job_data => (job_data :: tail.1, ex.2 ++ tail.2)
    | none => (tail.1, ex.2 ++ tail.2)

/-- The `for page in range(max_pages)` loop of `search_jobs` (lines 24-51),
from page index `page` with `fuel` pages remaining. Each cycle issues the
listing request with `start = page * 25`; an exception of the request, a
non-200 status, or a parse exception breaks the loop; a successful parse is
followed by `time.sleep(random.uniform(2, 4))` and the next page. -/
def search_jobs_from (lnet : String → String → Nat → ListingOutcome)
    (dnet : String → FetchOutcome) (keywords location : String) :
    Nat → Nat → List JobRecord × List Effect
  | _, 0 => ([], [])
  | page, fuel + 1 =>
    let start := page * 25
    let req := Effect.listingRequest keywords location start
    match lnet keywords location start with
    | .exn => ([], [req])
    | .resp status body =>
      if status ≠ 200 then ([], [req])
      else
        match body with
        | .error _ => ([], [req])
        | .ok cards =>
          let pr := parse_job_listing dnet cards
          let rest := search_jobs_from lnet dnet keywords location (page + 1) fuel
          (pr.1 ++ rest.1, req :: (pr.2 ++ Effect.sleepUniform 2 4 :: rest.2))

/-- `search_jobs` (lines 19-51): run the pagination loop from page 0 and
return the accumulated `jobs_data` together with the effect trace. -/
def search_jobs (lnet : String → String → Nat → ListingOutcome)
    (dnet : String → FetchOutcome) (keywords location : String)
    (max_pages : Nat) : List JobRecord × List Effect :=
  search_jobs_from lnet dnet keywords location 0 max_pages

/-- A detail fetch of `u` fails in a handled way: the request raises, the
status is not 200, or the body fails to parse. -/
def detailFetchFails (net : String → FetchOutcome) (u : String) : Bool :=
  match net u with
  | .exn => true
  | .resp status body =>
    if status ≠ 200 then true
    else
      match body with
      | .error _ => true
      | .ok _ => false

/-- A listing-page cycle at offset `start` fails: the request raises, the
status is not 200, or the body fails to parse. -/
def listingStepFails (lnet : String → String → Nat → ListingOutcome)
    (keywords location : String) (start : Nat) : Bool :=
  match lnet keywords location start with
  | .exn => true
  | .resp status body =>
    if status ≠ 200 then true
    else
      match body with
      | .error _ => true
      | .ok _ => false

/-- The `start` offsets of the listing-page requests of a trace, in order. -/
def listingStarts (effects : List Effect) : List Nat :=
  effects.filterMap fun e =>
    match e with
    | .listingRequest _ _ start => some start
    | _ => none

/-- The criteria item reaches the `employment type` branch of the
`if`/`elif` chain: both elements present, the lowered stripped label contains
"employment type" and does not contain "seniority level" (the earlier branch). -/
def setsEmploymentType (item : CriteriaItem) : Bool :=
  match item.subtitle, item.text with
  | some subtitle, some _ =>
    let subtitle_text := pyLower (pyStrip subtitle)
    !strContains subtitle_text "seniority level" &&
      strContains subtitle_text "employment type"
  | _, _ => false

/-! Helper lemmas shared by the claim theorems. -/

theorem pyTake_of_length_le (s : String) (n : Nat) (h : s.length ≤ n) :
    pyTake s n = s := by
  cases s with
  | mk data =>
    unfold pyTake
    rw [List.take_of_length_le h]

theorem classify_description_eq (d : DetailedData) (item : CriteriaItem) :
    (classifyCriteriaItem d item).description = d.description := by
  rcases item with ⟨sub, tx⟩
  cases sub <;> cases tx
  · rfl
  · rfl
  · rfl
  · simp only [classifyCriteriaItem]
    split_ifs <;> rfl

theorem classify_contact_eq (d : DetailedData) (item : CriteriaItem) :
    (classifyCriteriaItem d item).contact_info = d.contact_info := by
  rcases item with ⟨sub, tx⟩
  cases sub <;> cases tx
  · rfl
  · rfl
  · rfl
  · simp only [classifyCriteriaItem]
    split_ifs <;> rfl

theorem foldl_classify_description_eq (items : List CriteriaItem) :
    ∀ d : DetailedData,
      (List.foldl classifyCriteriaItem d items).description = d.description := by
  induction items with
  | nil => intro d; rfl
  | cons j rest ih =>
    intro d
    rw [List.foldl_cons, ih (classifyCriteriaItem d j), classify_description_eq]

theorem foldl_classify_contact_eq (items : List CriteriaItem) :
    ∀ d : DetailedData,
      (List.foldl classifyCriteriaItem d items).contact_info = d.contact_info := by
  induction items with
  | nil => intro d; rfl
  | cons j rest ih =>
    intro d
    rw [List.foldl_cons, ih (classifyCriteriaItem d j), classify_contact_eq]

theorem classify_not_sets_employment (d : DetailedData) (item : CriteriaItem)
    (h : setsEmploymentType item = false) :
    (classifyCriteriaItem d item).employment_type = d.employment_type := by
  rcases item with ⟨sub, tx⟩
  cases sub with
  | none => rfl
  | some s =>
    cases tx with
    | none => rfl
    | some t =>
      cases hs : strContains (pyLower (pyStrip s)) "seniority level" with
      | true => simp [classifyCriteriaItem, hs]
      | false =>
        cases he : strContains (pyLower (pyStrip s)) "employment type" with
        | true =>
          exfalso
          simp [setsEmploymentType, hs, he] at h
        | false =>
          simp only [classifyCriteriaItem, hs, he]
          simp only [Bool.false_eq_true, if_false]
          split_ifs <;> rfl

theorem classify_sets_employment (d : DetailedData) (item : CriteriaItem)
    (t : String) (h : setsEmploymentType item = true) (ht : item.text = some t) :
    classifyCriteriaItem d item = { d with employment_type := pyStrip t } := by
  rcases item with ⟨sub, tx⟩
  simp only at ht
  subst ht
  cases sub with
  | none => simp [setsEmploymentType] at h
  | some s =>
    simp only [setsEmploymentType, Bool.and_eq_true, Bool.not_eq_true'] at h
    simp [classifyCriteriaItem, h.1, h.2]

theorem foldl_classify_employment_untouched (items : List CriteriaItem)
    (h : ∀ j ∈ items, setsEmploymentType j = false) :
    ∀ d : DetailedData,
      (List.foldl classifyCriteriaItem d items).employment_type = d.employment_type := by
  induction items with
  | nil => intro d; rfl
  | cons j rest ih =>
    intro d
    rw [List.foldl_cons,
      ih (fun x hx => h x (List.mem_cons_of_mem _ hx)) (classifyCriteriaItem d j),
      classify_not_sets_employment d j (h j (List.mem_cons_self _ _))]

theorem get_detailed_job_info_success (net : String → FetchOutcome) (u : String)
    (soup : DetailPage) (h1 : u ≠ "") (h2 : u ≠ "N/A")
    (hnet : net u = FetchOutcome.resp 200 (Except.ok soup)) :
    get_detailed_job_info net (some u) =
      (extractDetailPage soup, [Effect.detailRequest u, Effect.sleepUniform 1 3]) := by
  simp only [get_detailed_job_info]
  rw [if_neg (by simp [h1, h2]), hnet]
  simp

theorem get_detailed_contact_cases (net : String → FetchOutcome)
    (url : Option String) :
    (get_detailed_job_info net url).1.contact_info = "N/A" ∨
      (get_detailed_job_info net url).1.contact_info = "Recruiter messaging available" := by
  cases url with
  | none => left; rfl
  | some u =>
    by_cases hu : u = "" ∨ u = "N/A"
    · left
      simp only [get_detailed_job_info]
      rw [if_pos hu]
      rfl
    · rw [not_or] at hu
      cases hnet : net u with
      | exn =>
        left
        simp only [get_detailed_job_info]
        rw [if_neg (by simp [hu.1, hu.2]), hnet]
        rfl
      | resp st body =>
        by_cases hst : st = 200
        · subst hst
          cases body with
          | error e =>
            left
            simp only [get_detailed_job_info]
            rw [if_neg (by simp [hu.1, hu.2]), hnet]
            simp
            rfl
          | ok soup =>
            rw [get_detailed_job_info_success net u soup hu.1 hu.2 hnet]
            show (extractDetailPage soup).contact_info = _ ∨
              (extractDetailPage soup).contact_info = _
            unfold extractDetailPage
            simp only
            split_ifs
            · right; rfl
            · left
              rw [foldl_classify_contact_eq]
              cases soup.descText <;> rfl
        · left
          simp only [get_detailed_job_info]
          rw [if_neg (by simp [hu.1, hu.2]), hnet]
          simp [hst]
          rfl

theorem extract_contact_cases (net : String → FetchOutcome) (card : Card)
    (r : JobRecord) (h : (extract_job_data net card).1 = some r) :
    r.contact_info = "N/A" ∨ r.contact_info = "Recruiter messaging available" := by
  rcases card with ⟨t, c, loc, dt, k⟩
  cases t with
  | none => simp [extract_job_data] at h
  | some t0 =>
    cases c with
    | none => simp [extract_job_data] at h
    | some c0 =>
      cases k with
      | none => simp [extract_job_data] at h
      | some k0 =>
        simp only [extract_job_data, Option.some.injEq] at h
        subst h
        exact get_detailed_contact_cases net k0

theorem parse_contact_cases (net : String → FetchOutcome) (cards : List Card)
    (r : JobRecord) (h : r ∈ (parse_job_listing net cards).1) :
    r.contact_info = "N/A" ∨ r.contact_info = "Recruiter messaging available" := by
  induction cards with
  | nil => simp [parse_job_listing] at h
  | cons c rest ih =>
    simp only [parse_job_listing] at h
    cases hex : (extract_job_data net c).1 with
    | none =>
      rw [hex] at h
      exact ih h
    | some jd =>
      rw [hex] at h
      rcases List.mem_cons.mp h with rfl | hmem
      · exact extract_contact_cases net c r hex
      · exact ih hmem

theorem parse_job_listing_append (net : String → FetchOutcome)
    (l1 l2 : List Card) :
    parse_job_listing net (l1 ++ l2) =
      ((parse_job_listing net l1).1 ++ (parse_job_listing net l2).1,
        (parse_job_listing net l1).2 ++ (parse_job_listing net l2).2) := by
  induction l1 with
  | nil => simp [parse_job_listing]
  | cons c rest ih =>
    cases hex : (extract_job_data net c).1 <;>
      simp [parse_job_listing, hex, ih, List.append_assoc]

theorem listingStarts_append (a b : List Effect) :
    listingStarts (a ++ b) = listingStarts a ++ listingStarts b := by
  unfold listingStarts
  rw [List.filterMap_append]

theorem listingStarts_cons_listing (keywords location : String) (start : Nat)
    (es : List Effect) :
    listingStarts (Effect.listingRequest keywords location start :: es) =
      start :: listingStarts es := rfl

theorem listingStarts_cons_detail (url : String) (es : List Effect) :
    listingStarts (Effect.detailRequest url :: es) = listingStarts es := rfl

theorem listingStarts_cons_sleep (lo hi : Nat) (es : List Effect) :
    listingStarts (Effect.sleepUniform lo hi :: es) = listingStarts es := rfl

theorem listingStarts_nil : listingStarts [] = [] := rfl

theorem listingStarts_get_detailed (net : String → FetchOutcome)
    (url : Option String) :
    listingStarts (get_detailed_job_info net url).2 = [] := by
  cases url with
  | none => rfl
  | some u =>
    simp only [get_detailed_job_info]
    by_cases hu : u = "" ∨ u = "N/A"
    · rw [if_pos hu]
      rfl
    · rw [if_neg hu]
      cases hnet : net u with
      | exn => rfl
      | resp st body =>
        by_cases hst : st = 200
        · subst hst
          cases body <;> rfl
        · simp [hst, listingStarts]

theorem listingStarts_extract (net : String → FetchOutcome) (card : Card) :
    listingStarts (extract_job_data net card).2 = [] := by
  rcases card with ⟨t, c, loc, dt, k⟩
  cases t with
  | none => rfl
  | some t0 =>
    cases c with
    | none => rfl
    | some c0 =>
      cases k with
      | none => rfl
      | some k0 =>
        show listingStarts (get_detailed_job_info net k0).2 = []
        exact listingStarts_get_detailed net k0

theorem listingStarts_parse (net : String → FetchOutcome) (cards : List Card) :
    listingStarts (parse_job_listing net cards).2 = [] := by
  induction cards with
  | nil => rfl
  | cons c rest ih =>
    simp only [parse_job_listing]
    cases hex : (extract_job_data net c).1 <;>
      simp [hex, listingStarts_append, listingStarts_extract, ih]

theorem search_jobs_from_exn (lnet : String → String → Nat → ListingOutcome)
    (dnet : String → FetchOutcome) (keywords location : String)
    (page fuel : Nat)
    (h : lnet keywords location (page * 25) = ListingOutcome.exn) :
    search_jobs_from lnet dnet keywords location page (fuel + 1) =
      ([], [Effect.listingRequest keywords location (page * 25)]) := by
  simp only [search_jobs_from]
  rw [h]

theorem search_jobs_from_bad_status (lnet : String → String → Nat → ListingOutcome)
    (dnet : String → FetchOutcome) (keywords location : String)
    (page fuel : Nat) (st : Nat) (body : Except Unit (List Card))
    (h : lnet keywords location (page * 25) = ListingOutcome.resp st body)
    (hst : st ≠ 200) :
    search_jobs_from lnet dnet keywords location page (fuel + 1) =
      ([], [Effect.listingRequest keywords location (page * 25)]) := by
  simp only [search_jobs_from]
  rw [h]
  simp [hst]

theorem search_jobs_from_parse_error (lnet : String → String → Nat → ListingOutcome)
    (dnet : String → FetchOutcome) (keywords location : String)
    (page fuel : Nat) (e : Unit)
    (h : lnet keywords location (page * 25) = ListingOutcome.resp 200 (Except.error e)) :
    search_jobs_from lnet dnet keywords location page (fuel + 1) =
      ([], [Effect.listingRequest keywords location (page * 25)]) := by
  simp only [search_jobs_from]
  rw [h]
  simp

theorem search_jobs_from_ok (lnet : String → String → Nat → ListingOutcome)
    (dnet : String → FetchOutcome) (keywords location : String)
    (page fuel : Nat) (cards : List Card)
    (h : lnet keywords location (page * 25) = ListingOutcome.resp 200 (Except.ok cards)) :
    search_jobs_from lnet dnet keywords location page (fuel + 1) =
      ((parse_job_listing dnet cards).1 ++
          (search_jobs_from lnet dnet keywords location (page + 1) fuel).1,
        Effect.listingRequest keywords location (page * 25) ::
          ((parse_job_listing dnet cards).2 ++
            Effect.sleepUniform 2 4 ::
              (search_jobs_from lnet dnet keywords location (page + 1) fuel).2)) := by
  simp only [search_jobs_from]
  rw [h]
  simp

theorem search_from_contact_cases (lnet : String → String → Nat → ListingOutcome)
    (dnet : String → FetchOutcome) (keywords location : String) (fuel : Nat) :
    ∀ (page : Nat) (r : JobRecord),
      r ∈ (search_jobs_from lnet dnet keywords location page fuel).1 →
      r.contact_info = "N/A" ∨ r.contact_info = "Recruiter messaging available" := by
  induction fuel with
  | zero =>
    intro page r h
    simp [search_jobs_from] at h
  | succ n ih =>
    intro page r h
    cases hl : lnet keywords location (page * 25) with
    | exn =>
      rw [search_jobs_from_exn lnet dnet keywords location page n hl] at h
      simp at h
    | resp st body =>
      by_cases hst : st = 200
      · subst hst
        cases body with
        | error e =>
          rw [search_jobs_from_parse_error lnet dnet keywords location page n e hl] at h
          simp at h
        | ok cards =>
          rw [search_jobs_from_ok lnet dnet keywords location page n cards hl] at h
          rcases List.mem_append.mp h with hm | hm
          · exact parse_contact_cases dnet cards r hm
          · exact ih (page + 1) r hm
      · rw [search_jobs_from_bad_status lnet dnet keywords location page n st body hl hst] at h
        simp at h

/-! Claim theorems. -/

/-- C1: for every job URL and every detail-page outcome — missing, empty or
`"N/A"` URL, request exception (unreachable URL), non-success HTTP status, or
parse exception — `get_detailed_job_info` returns the detail set with all six
detail fields equal to `"N/A"`; being a total function, it never raises to its
caller. -/
theorem get_detailed_job_info_failure_defaults (net : String → FetchOutcome)
    (job_url : Option String)
    (h : job_url = none ∨ job_url = some "" ∨ job_url = some "N/A" ∨
      ∃ u, job_url = some u ∧ detailFetchFails net u = true) :
    (get_detailed_job_info net job_url).1 = defaultDetailedData ∧
      (get_detailed_job_info net job_url).1.description = "N/A" ∧
      (get_detailed_job_info net job_url).1.seniority_level = "N/A" ∧
      (get_detailed_job_info net job_url).1.employment_type = "N/A" ∧
      (get_detailed_job_info net job_url).1.job_function = "N/A" ∧
      (get_detailed_job_info net job_url).1.industries = "N/A" ∧
      (get_detailed_job_info net job_url).1.contact_info = "N/A" := by
  have hd : (get_detailed_job_info net job_url).1 = defaultDetailedData := by
    rcases h with rfl | rfl | rfl | ⟨u, rfl, hf⟩
    · rfl
    · rfl
    · rfl
    · by_cases hu : u = "" ∨ u = "N/A"
      · simp only [get_detailed_job_info]
        rw [if_pos hu]
      · simp only [get_detailed_job_info]
        rw [if_neg hu]
        unfold detailFetchFails at hf
        cases hnet : net u with
        | exn => rfl
        | resp st body =>
          rw [hnet] at hf
          by_cases hst : st = 200
          · subst hst
            cases body with
            | error e => rfl
            | ok soup =>
              exfalso
              simp at hf
          · simp [hst]
  exact ⟨hd, by rw [hd]; rfl, by rw [hd]; rfl, by rw [hd]; rfl, by rw [hd]; rfl,
    by rw [hd]; rfl, by rw [hd]; rfl⟩

/-- A detail network on which every request raises. -/
def unreachableNet : String → FetchOutcome := fun _ => FetchOutcome.exn

/-- Witness for C1: the failure case at a concrete unreachable URL. -/
theorem get_detailed_job_info_failure_defaults_witness :
    (get_detailed_job_info unreachableNet (some "https://jobs.example/1")).1 =
        defaultDetailedData ∧
      (get_detailed_job_info unreachableNet (some "https://jobs.example/1")).1.description = "N/A" ∧
      (get_detailed_job_info unreachableNet (some "https://jobs.example/1")).1.seniority_level = "N/A" ∧
      (get_detailed_job_info unreachableNet (some "https://jobs.example/1")).1.employment_type = "N/A" ∧
      (get_detailed_job_info unreachableNet (some "https://jobs.example/1")).1.job_function = "N/A" ∧
      (get_detailed_job_info unreachableNet (some "https://jobs.example/1")).1.industries = "N/A" ∧
      (get_detailed_job_info unreachableNet (some "https://jobs.example/1")).1.contact_info = "N/A" :=
  get_detailed_job_info_failure_defaults unreachableNet (some "https://jobs.example/1")
    (Or.inr (Or.inr (Or.inr ⟨"https://jobs.example/1", rfl, rfl⟩)))

/-- C2: on a successful detail page whose description container is present,
the stored description is the first 500 characters of the stripped text with
`"..."` appended: when the stripped text has length at most 500 the whole
text is kept and the ellipsis is still appended, and when it is longer only
the first 500 characters are kept before the ellipsis. -/
theorem get_detailed_job_info_description_truncation (net : String → FetchOutcome)
    (u : String) (soup : DetailPage) (raw : String)
    (h1 : u ≠ "") (h2 : u ≠ "N/A")
    (hnet : net u = FetchOutcome.resp 200 (Except.ok soup))
    (hdesc : soup.descText = some raw) :
    (get_detailed_job_info net (some u)).1.description =
        pyTake (pyStrip raw) 500 ++ "..." ∧
      ((pyStrip raw).length ≤ 500 →
        (get_detailed_job_info net (some u)).1.description = pyStrip raw ++ "...") ∧
      (500 < (pyStrip raw).length →
        (get_detailed_job_info net (some u)).1.description =
          pyTake (pyStrip raw) 500 ++ "...") := by
  have hmain : (get_detailed_job_info net (some u)).1.description =
      pyTake (pyStrip raw) 500 ++ "..." := by
    rw [get_detailed_job_info_success net u soup h1 h2 hnet]
    show (extractDetailPage soup).description = _
    unfold extractDetailPage
    simp only
    split_ifs
    · show (List.foldl classifyCriteriaItem _ soup.criteriaItems).description = _
      rw [foldl_classify_description_eq, hdesc]
    · rw [foldl_classify_description_eq, hdesc]
  exact ⟨hmain,
    fun hlen => by rw [hmain, pyTake_of_length_le (pyStrip raw) 500 hlen],
    fun _ => hmain⟩

/-- A detail page with a short description and a network that serves it. -/
def shortDescSoup : DetailPage :=
  { descText := some "  Great role  ", criteriaItems := [], hasContactElem := false }

def shortDescNet : String → FetchOutcome := fun _ =>
  FetchOutcome.resp 200 (Except.ok shortDescSoup)

/-- Witness for C2: a stripped description of length 10 still gets the
ellipsis appended. -/
theorem get_detailed_job_info_description_truncation_witness :
    (pyStrip "  Great role  ").length ≤ 500 ∧
      (get_detailed_job_info shortDescNet (some "https://jobs.example/2")).1.description =
        pyStrip "  Great role  " ++ "..." :=
  ⟨by decide,
    (get_detailed_job_info_description_truncation shortDescNet "https://jobs.example/2"
        shortDescSoup "  Great role  " (by decide) (by decide) rfl rfl).2.1 (by decide)⟩

/-- A detail network answering every request with a 404 status. -/
def status404Net : String → FetchOutcome := fun _ =>
  FetchOutcome.resp 404
    (Except.ok { descText := none, criteriaItems := [], hasContactElem := false })

/-- C4 (counterexample): the claim says a handled failure (here a 404 status)
still sleeps before returning; in the code the early `return` at line 120 skips
the sleep at line 154, so the trace of this failing fetch contains no
`sleepUniform 1 3` effect. -/
theorem get_detailed_job_info_sleep_counterexample :
    detailFetchFails status404Net "https://jobs.example/3" = true ∧
      (get_detailed_job_info status404Net (some "https://jobs.example/3")).2 =
        [Effect.detailRequest "https://jobs.example/3"] ∧
      Effect.sleepUniform 1 3 ∉
        (get_detailed_job_info status404Net (some "https://jobs.example/3")).2 := by
  decide

/-- C4 (amended): the blocking `time.sleep(random.uniform(1, 3))` occurs
before `get_detailed_job_info` returns exactly when the fetch fully succeeds —
a non-trivial URL whose request returns status 200 and whose body parses; on a
handled failure (non-success status, request exception, or parse exception)
the function returns without sleeping. -/
theorem get_detailed_job_info_sleep_iff_success (net : String → FetchOutcome)
    (url : Option String) :
    Effect.sleepUniform 1 3 ∈ (get_detailed_job_info net url).2 ↔
      ∃ u soup, url = some u ∧ u ≠ "" ∧ u ≠ "N/A" ∧
        net u = FetchOutcome.resp 200 (Except.ok soup) := by
  constructor
  · intro hmem
    cases url with
    | none => simp [get_detailed_job_info] at hmem
    | some u =>
      by_cases hu : u = "" ∨ u = "N/A"
      · simp only [get_detailed_job_info] at hmem
        rw [if_pos hu] at hmem
        simp at hmem
      · rw [not_or] at hu
        cases hnet : net u with
        | exn =>
          simp only [get_detailed_job_info] at hmem
          rw [if_neg (not_or.mpr hu), hnet] at hmem
          simp at hmem
        | resp st body =>
          by_cases hst : st = 200
          · subst hst
            cases body with
            | error e =>
              simp only [get_detailed_job_info] at hmem
              rw [if_neg (not_or.mpr hu), hnet] at hmem
              simp at hmem
            | ok soup => exact ⟨u, soup, rfl, hu.1, hu.2, hnet⟩
          · simp only [get_detailed_job_info] at hmem
            rw [if_neg (not_or.mpr hu), hnet] at hmem
            simp [hst] at hmem
  · rintro ⟨u, soup, rfl, h1, h2, hnet⟩
    rw [get_detailed_job_info_success net u soup h1 h2 hnet]
    simp

/-- C6: for the inputs `""` and `"N/A"`, `get_detailed_job_info` returns
exactly the all-`"N/A"` default detail set with an empty effect trace — no
HTTP request and no sleep. -/
theorem get_detailed_job_info_trivial_url (net : String → FetchOutcome)
    (u : String) (h : u = "" ∨ u = "N/A") :
    get_detailed_job_info net (some u) = (defaultDetailedData, []) := by
  simp only [get_detailed_job_info]
  rw [if_pos h]

/-- Witness for C6 at both trivial inputs. -/
theorem get_detailed_job_info_trivial_url_witness :
    get_detailed_job_info unreachableNet (some "") = (defaultDetailedData, []) ∧
      get_detailed_job_info unreachableNet (some "N/A") = (defaultDetailedData, []) :=
  ⟨get_detailed_job_info_trivial_url unreachableNet "" (Or.inl rfl),
    get_detailed_job_info_trivial_url unreachableNet "N/A" (Or.inr rfl)⟩

/-- C7: classification lower-cases the (stripped) label text and tests
substring containment against the four categories; an item whose label
contains none of "seniority level", "employment type", "job function",
"industries" leaves all detail fields unchanged. -/
theorem classifyCriteriaItem_unmatched_label (d : DetailedData)
    (item : CriteriaItem) (subtitle : String)
    (hsub : item.subtitle = some subtitle)
    (h1 : strContains (pyLower (pyStrip subtitle)) "seniority level" = false)
    (h2 : strContains (pyLower (pyStrip subtitle)) "employment type" = false)
    (h3 : strContains (pyLower (pyStrip subtitle)) "job function" = false)
    (h4 : strContains (pyLower (pyStrip subtitle)) "industries" = false) :
    classifyCriteriaItem d item = d := by
  rcases item with ⟨sub, tx⟩
  simp only at hsub
  subst hsub
  cases tx with
  | none => rfl
  | some t => simp [classifyCriteriaItem, h1, h2, h3, h4]

/-- Witness for C7: a "Salary range" label matches no category and changes
nothing. -/
theorem classifyCriteriaItem_unmatched_label_witness :
    classifyCriteriaItem defaultDetailedData
        { subtitle := some "Salary range", text := some "$100k" } =
      defaultDetailedData :=
  classifyCriteriaItem_unmatched_label defaultDetailedData
    { subtitle := some "Salary range", text := some "$100k" } "Salary range" rfl
    (by decide) (by decide) (by decide) (by decide)

/-- A listing network where page 0 succeeds with no cards and every later
page answers 404. -/
def pageOneFailsLNet : String → String → Nat → ListingOutcome := fun _ _ start =>
  if start = 0 then ListingOutcome.resp 200 (Except.ok [])
  else ListingOutcome.resp 404 (Except.ok [])

/-- C3 (counterexample): with `max_pages = 2`, when the first listing request
succeeds and the second fails (404), the failing request has itself been
issued, so exactly 2 listing requests are issued — not fewer than 2 as the
claim states for any listing failure. -/
theorem search_jobs_two_pages_counterexample :
    listingStepFails pageOneFailsLNet "kw" "loc" 25 = true ∧
      listingStarts (search_jobs pageOneFailsLNet unreachableNet "kw" "loc" 2).2 =
        [0, 25] ∧
      ¬ (listingStarts (search_jobs pageOneFailsLNet unreachableNet "kw" "loc" 2).2).length < 2 := by
  decide

/-- C3 (amended): with `max_pages = 2` the listing requests issued are exactly
offsets `[0]` when the first page cycle fails (fewer than 2), and exactly
`[0, 25]` otherwise — at most 2 in every case, each offset requested at most
once (zero retries), and no request is ever issued after a failing one (the
run aborts on the first failure; a failure of the second request still means
2 requests were issued). -/
theorem search_jobs_two_pages_requests (lnet : String → String → Nat → ListingOutcome)
    (dnet : String → FetchOutcome) (keywords location : String) :
    listingStarts (search_jobs lnet dnet keywords location 2).2 =
      if listingStepFails lnet keywords location 0 then [0] else [0, 25] := by
  unfold search_jobs listingStepFails
  show listingStarts (search_jobs_from lnet dnet keywords location 0 (1 + 1)).2 = _
  cases h0 : lnet keywords location 0 with
  | exn =>
    rw [search_jobs_from_exn lnet dnet keywords location 0 1
      (show lnet keywords location (0 * 25) = ListingOutcome.exn from h0)]
    simp [listingStarts]
  | resp st body =>
    by_cases hst : st = 200
    · subst hst
      cases body with
      | error e =>
        rw [search_jobs_from_parse_error lnet dnet keywords location 0 1 e
          (show lnet keywords location (0 * 25) =
            ListingOutcome.resp 200 (Except.error e) from h0)]
        simp [listingStarts]
      | ok cards =>
        rw [search_jobs_from_ok lnet dnet keywords location 0 1 cards
          (show lnet keywords location (0 * 25) =
            ListingOutcome.resp 200 (Except.ok cards) from h0)]
        cases h1 : lnet keywords location (1 * 25) with
        | exn =>
          rw [search_jobs_from_exn lnet dnet keywords location 1 0 h1]
          simp [listingStarts_cons_listing, listingStarts_cons_sleep,
            listingStarts_append, listingStarts_parse, listingStarts_nil]
        | resp st1 body1 =>
          by_cases hst1 : st1 = 200
          · subst hst1
            cases body1 with
            | error e1 =>
              rw [search_jobs_from_parse_error lnet dnet keywords location 1 0 e1 h1]
              simp [listingStarts_cons_listing, listingStarts_cons_sleep,
                listingStarts_append, listingStarts_parse, listingStarts_nil]
            | ok cards1 =>
              rw [search_jobs_from_ok lnet dnet keywords location 1 0 cards1 h1]
              simp [search_jobs_from, listingStarts_cons_listing,
                listingStarts_cons_sleep, listingStarts_append, listingStarts_parse,
                listingStarts_nil]
          · rw [search_jobs_from_bad_status lnet dnet keywords location 1 0 st1 body1 h1 hst1]
            simp [listingStarts_cons_listing, listingStarts_cons_sleep,
              listingStarts_append, listingStarts_parse, listingStarts_nil]
    · rw [search_jobs_from_bad_status lnet dnet keywords location 0 1 st body
        (show lnet keywords location (0 * 25) = ListingOutcome.resp st body from h0) hst]
      simp [listingStarts, hst]

/-- C5: a job card missing any of the title, company or full-link elements
produces no record and no effects — `extract_job_data` returns `None` before
any detail fetch — and parsing a page containing that card equals parsing the
sibling cards alone, so every other card is unaffected. -/
theorem extract_job_data_incomplete_card (net : String → FetchOutcome)
    (pre post : List Card) (card : Card)
    (h : card.title_elem = none ∨ card.company_elem = none ∨ card.link_elem = none) :
    extract_job_data net card = (none, []) ∧
      parse_job_listing net (pre ++ card :: post) =
        ((parse_job_listing net pre).1 ++ (parse_job_listing net post).1,
          (parse_job_listing net pre).2 ++ (parse_job_listing net post).2) := by
  have hex : extract_job_data net card = (none, []) := by
    rcases card with ⟨t, c, loc, dt, k⟩
    simp only at h
    rcases h with rfl | rfl | rfl
    · cases c <;> cases k <;> rfl
    · cases t <;> cases k <;> rfl
    · cases t <;> cases c <;> rfl
  refine ⟨hex, ?_⟩
  rw [parse_job_listing_append]
  have hstep : parse_job_listing net (card :: post) = parse_job_listing net post := by
    simp [parse_job_listing, hex]
  rw [hstep]

/-- A card whose title element is missing. -/
def missingTitleCard : Card :=
  { title_elem := none, company_elem := some "Acme", location_elem := some "Rabat",
    date_elem := some (some "2024-05-01"), link_elem := some (some "https://jobs.example/4") }

/-- Witness for C5 at a concrete card with no title element. -/
theorem extract_job_data_incomplete_card_witness :
    extract_job_data unreachableNet missingTitleCard = (none, []) ∧
      parse_job_listing unreachableNet ([] ++ missingTitleCard :: []) =
        ((parse_job_listing unreachableNet []).1 ++ (parse_job_listing unreachableNet []).1,
          (parse_job_listing unreachableNet []).2 ++ (parse_job_listing unreachableNet []).2) :=
  extract_job_data_incomplete_card unreachableNet [] [] missingTitleCard (Or.inl rfl)

/-- C8: when the criteria list of a successful detail page contains two items
that both reach the `employment type` branch, and no item after the second one
does, the stored `employment_type` is the (stripped) value of the later item —
overwrite semantics, last one wins. -/
theorem get_detailed_job_info_employment_last_wins (net : String → FetchOutcome)
    (u : String) (soup : DetailPage) (l1 l2 l3 : List CriteriaItem)
    (i1 i2 : CriteriaItem) (t2 : String)
    (h1 : u ≠ "") (h2 : u ≠ "N/A")
    (hnet : net u = FetchOutcome.resp 200 (Except.ok soup))
    (hitems : soup.criteriaItems = l1 ++ i1 :: l2 ++ i2 :: l3)
    (_hm1 : setsEmploymentType i1 = true)
    (hm2 : setsEmploymentType i2 = true)
    (ht2 : i2.text = some t2)
    (hl3 : ∀ j ∈ l3, setsEmploymentType j = false) :
    (get_detailed_job_info net (some u)).1.employment_type = pyStrip t2 := by
  rw [get_detailed_job_info_success net u soup h1 h2 hnet]
  show (extractDetailPage soup).employment_type = pyStrip t2
  have key : ∀ dd : DetailedData,
      (List.foldl classifyCriteriaItem dd soup.criteriaItems).employment_type =
        pyStrip t2 := by
    intro dd
    rw [hitems,
      show l1 ++ i1 :: l2 ++ i2 :: l3 = (l1 ++ i1 :: l2) ++ i2 :: l3 by simp,
      List.foldl_append, List.foldl_cons,
      foldl_classify_employment_untouched l3 hl3,
      classify_sets_employment _ i2 t2 hm2 ht2]
  unfold extractDetailPage
  simp only
  split_ifs
  · show (List.foldl classifyCriteriaItem _ soup.criteriaItems).employment_type = _
    exact key _
  · exact key _

def empItem1 : CriteriaItem := { subtitle := some "Employment type", text := some "Full-time" }

def empItem2 : CriteriaItem := { subtitle := some "Employment type", text := some " Contract " }

/-- A detail page carrying two employment-type criteria items, and a network
serving it. -/
def twoEmploymentSoup : DetailPage :=
  { descText := none, criteriaItems := [empItem1, empItem2], hasContactElem := false }

def twoEmploymentNet : String → FetchOutcome := fun _ =>
  FetchOutcome.resp 200 (Except.ok twoEmploymentSoup)

/-- Witness for C8: with "Full-time" before " Contract ", the stored value is
the stripped later one. -/
theorem get_detailed_job_info_employment_last_wins_witness :
    (get_detailed_job_info twoEmploymentNet
        (some "https://jobs.example/5")).1.employment_type = pyStrip " Contract " :=
  get_detailed_job_info_employment_last_wins twoEmploymentNet "https://jobs.example/5"
    twoEmploymentSoup [] [] [] empItem1 empItem2 " Contract "
    (by decide) (by decide) rfl rfl (by decide) (by decide) rfl (by simp)

/-- C9: a card whose full-link anchor is present but carries no `href` (title
and company present) still yields a record, which is appended by the page
parse; that record's `job_url` is the null value `none` (not a string like
`"N/A"`), and the detail fetch on `none` is a no-op returning the defaults
with no request and no sleep. -/
theorem extract_job_data_missing_href (net : String → FetchOutcome) (card : Card)
    (title_text company_text : String)
    (ht : card.title_elem = some title_text)
    (hc : card.company_elem = some company_text)
    (hl : card.link_elem = some none) :
    ((extract_job_data net card).1.isSome = true) ∧
      (extract_job_data net card).2 = [] ∧
      Option.map JobRecord.job_url (extract_job_data net card).1 = some none ∧
      (parse_job_listing net [card]).1.length = 1 ∧
      get_detailed_job_info net none = (defaultDetailedData, []) ∧
      Option.map JobRecord.description (extract_job_data net card).1 = some "N/A" ∧
      Option.map JobRecord.contact_info (extract_job_data net card).1 = some "N/A" := by
  rcases card with ⟨t, c, loc, dt, k⟩
  simp only at ht hc hl
  subst ht
  subst hc
  subst hl
  exact ⟨rfl, rfl, rfl, rfl, rfl, rfl, rfl⟩

/-- A card whose anchor has no `href` attribute. -/
def noHrefCard : Card :=
  { title_elem := some "Data Engineer", company_elem := some "Acme",
    location_elem := some "Berlin", date_elem := some (some "2024-05-01"),
    link_elem := some none }

/-- Witness for C9 at a concrete card. -/
theorem extract_job_data_missing_href_witness :
    ((extract_job_data unreachableNet noHrefCard).1.isSome = true) ∧
      (extract_job_data unreachableNet noHrefCard).2 = [] ∧
      Option.map JobRecord.job_url (extract_job_data unreachableNet noHrefCard).1 =
        some none ∧
      (parse_job_listing unreachableNet [noHrefCard]).1.length = 1 ∧
      get_detailed_job_info unreachableNet none = (defaultDetailedData, []) ∧
      Option.map JobRecord.description (extract_job_data unreachableNet noHrefCard).1 =
        some "N/A" ∧
      Option.map JobRecord.contact_info (extract_job_data unreachableNet noHrefCard).1 =
        some "N/A" :=
  extract_job_data_missing_href unreachableNet noHrefCard "Data Engineer" "Acme"
    rfl rfl rfl

/-- C10: every record ever appended to `jobs_data` during a run of
`search_jobs` has `contact_info` equal to `"N/A"` or
`"Recruiter messaging available"`; the invariant is preserved through every
page cycle, card extraction and detail fetch of the run. -/
theorem search_jobs_contact_info_invariant
    (lnet : String → String → Nat → ListingOutcome) (dnet : String → FetchOutcome)
    (keywords location : String) (max_pages : Nat) (r : JobRecord)
    (h : r ∈ (search_jobs lnet dnet keywords location max_pages).1) :
    r.contact_info = "N/A" ∨ r.contact_info = "Recruiter messaging available" :=
  search_from_contact_cases lnet dnet keywords location max_pages 0 r h

/-- A one-page listing network serving a single complete card. -/
def singleCardLNet : String → String → Nat → ListingOutcome := fun _ _ start =>
  if start = 0 then
    ListingOutcome.resp 200 (Except.ok
      [{ title_elem := some "Dev", company_elem := some "Acme",
         location_elem := some "Rabat", date_elem := some (some "2024-05-01"),
         link_elem := some (some "https://jobs.example/6") }])
  else ListingOutcome.exn

/-- The record that run produces. -/
def singleCardRecord : JobRecord :=
  { title := "Dev", company := "Acme", location := "Rabat",
    date_posted := some "2024-05-01", job_url := some "https://jobs.example/6",
    description := "N/A", seniority_level := "N/A", employment_type := "N/A",
    job_function := "N/A", industries := "N/A", contact_info := "N/A" }

/-- Witness for C10: the invariant applied to the record of a concrete run. -/
theorem search_jobs_contact_info_invariant_witness :
    singleCardRecord.contact_info = "N/A" ∨
      singleCardRecord.contact_info = "Recruiter messaging available" :=
  search_jobs_contact_info_invariant singleCardLNet unreachableNet "kw" "" 1
    singleCardRecord (by decide)

end Scraper
